import Mathlib

/-!
Verification of the CumulusCI dependency model, parser, flattener and
installer dispatch (`cumulusci/core/dependencies/dependencies.py`).

The Python code is shallowly embedded: each pydantic model class becomes a
Lean structure, pydantic validation (`parse_obj`) becomes a
`fromRecord : Record → Option _` function, exceptions become `Except`
results, and the external collaborators (the GitHub repository reader and
the org state reader, which the spec treats as external interfaces) become
function-valued structures.
-/

namespace CumulusCI

/-- Python truthiness of an optional string: `None` and the empty string are
falsy, every other string is truthy. -/
def optTruthy : Option String → Bool
  | none => false
  | some s => s ≠ ""

/-- Python `f"{x}"` rendering of an optional string: `None` renders as
"None". -/
def pyStr : Option String → String
  | none => "None"
  | some s => s

/-- Python `str.strip(c)`: remove every leading and trailing occurrence of
the character `c`. -/
def pyStripChar (c : Char) (s : String) : String :=
  ⟨((s.toList.dropWhile (· == c)).reverse.dropWhile (· == c)).reverse⟩

/-- Python `str.split(sep)` with a one-character separator, on a list of
characters: splits at every occurrence of `sep`, keeping empty pieces
(`"".split(" ") == [""]`, `"a  b".split(" ") == ["a", "", "b"]`). -/
def pySplitCharList (sep : Char) : List Char → List (List Char)
  | [] => [[]]
  | c :: rest =>
    let groups := pySplitCharList sep rest
    if c == sep then
      [] :: groups
    else
      match groups with
      | [] => [[c]]
      | g :: gs => (c :: g) :: gs

/-- Python `s.split(sep)` with a one-character separator. -/
def pySplitChar (sep : Char) (s : String) : List String :=
  (pySplitCharList sep s.toList).map (fun l => ⟨l⟩)

/-- Python `needle in hay` substring containment on lists of characters. -/
def listContainsSub (needle : List Char) : List Char → Bool
  | [] => needle.isEmpty
  | c :: rest => needle.isPrefixOf (c :: rest) || listContainsSub needle rest

/-- Python `"needle" in hay` substring containment on strings. -/
def strContainsSub (needle hay : String) : Bool :=
  listContainsSub needle.toList hay.toList

/-- Boolean lexicographic comparison of character lists by code point:
the comparison Python uses for `sorted` on strings. -/
def charListLe : List Char → List Char → Bool
  | [], _ => true
  | _ :: _, [] => false
  | a :: as, b :: bs => if a < b then true else if b < a then false else charListLe as bs

/-- Boolean lexicographic string comparison by code point (Python's `<=`
on `str`, the order `sorted` uses). -/
def strLe (a b : String) : Bool :=
  charListLe a.toList b.toList

/-! ### The dependency data model

Each pydantic model class of `dependencies.py` becomes a structure whose
fields mirror the class's declared fields (including the fields inherited
from its base classes). Optional pydantic fields become `Option` fields.
-/

/-- `PackageNamespaceVersionDependency`: static dependency on a package
identified by namespace and version number. -/
structure PackageNamespaceVersionDependency where
  «namespace» : String
  version : String
  package_name : Option String := none
  password_env_name : Option String := none
deriving DecidableEq

/-- `PackageVersionIdDependency`: static dependency on a package identified
by 04t version id. -/
structure PackageVersionIdDependency where
  version_id : String
  package_name : Option String := none
  version_number : Option String := none
  password_env_name : Option String := none
deriving DecidableEq

/-- `UnmanagedGitHubRefDependency`: static dependency on unmanaged metadata
in a specific GitHub ref and subfolder. Inherits `unmanaged`, `subfolder`,
`namespace_inject`, `namespace_strip` from `UnmanagedDependency`.
URL validity of `github` (pydantic `AnyUrl`) is abstracted: the model
treats every string as a well-formed URL. -/
structure UnmanagedGitHubRefDependency where
  repo_owner : Option String := none
  repo_name : Option String := none
  github : Option String := none
  ref : String
  unmanaged : Option Bool := none
  subfolder : Option String := none
  namespace_inject : Option String := none
  namespace_strip : Option String := none
deriving DecidableEq

/-- `UnmanagedZipURLDependency`: static dependency on unmanaged metadata
downloaded as a zip file from a URL. -/
structure UnmanagedZipURLDependency where
  zip_url : String
  unmanaged : Option Bool := none
  subfolder : Option String := none
  namespace_inject : Option String := none
  namespace_strip : Option String := none
deriving DecidableEq

/-- The `StaticDependency` abstract base class: tagged union of the four
static (always resolved and flattened) dependency variants. -/
inductive StaticDependency where
  | packageNamespaceVersion : PackageNamespaceVersionDependency → StaticDependency
  | packageVersionId : PackageVersionIdDependency → StaticDependency
  | unmanagedGitHubRef : UnmanagedGitHubRefDependency → StaticDependency
  | unmanagedZipURL : UnmanagedZipURLDependency → StaticDependency
deriving DecidableEq

/-- `GitHubDynamicDependency`: a dependency expressed by a reference to a
GitHub repo, which needs to be resolved to a specific ref and/or package
version. Includes the `managed_dependency` and `password_env_name` fields
inherited from `DynamicDependency` and the GitHub location fields inherited
from `BaseGitHubDependency`. -/
structure GitHubDynamicDependency where
  github : Option String := none
  repo_owner : Option String := none
  repo_name : Option String := none
  tag : Option String := none
  ref : Option String := none
  unmanaged : Bool := false
  namespace_inject : Option String := none
  namespace_strip : Option String := none
  password_env_name : Option String := none
  skip : List String := []
  managed_dependency : Option StaticDependency := none
deriving DecidableEq

/-- `GitHubDynamicSubfolderDependency`: a dependency expressed by a
reference to a subfolder of a GitHub repo, which needs to be resolved to a
specific ref. Always an unmanaged dependency. -/
structure GitHubDynamicSubfolderDependency where
  github : Option String := none
  repo_owner : Option String := none
  repo_name : Option String := none
  tag : Option String := none
  ref : Option String := none
  subfolder : String
  namespace_inject : Option String := none
  namespace_strip : Option String := none
  password_env_name : Option String := none
  managed_dependency : Option StaticDependency := none
deriving DecidableEq

/-- The `Dependency` abstract base class: tagged union of every concrete
dependency variant. -/
inductive Dependency where
  | static : StaticDependency → Dependency
  | githubDynamic : GitHubDynamicDependency → Dependency
  | githubDynamicSubfolder : GitHubDynamicSubfolderDependency → Dependency
deriving DecidableEq

/-! ### Declaration records and the parser

A `Record` is the raw declaration dict consumed by `parse_dependency`
(spec section 6 lists its keys). A missing key is `none`. The `skip` key
is stored already list-ified, mirroring the `listify_skip` pre-validator.

Each variant's `fromRecord` models `Class.parse_obj(record)`: `none` means
a `pydantic.ValidationError` was raised. Modelled from the spec: the
pydantic base model `CCIModel` (defined outside `src/`, in
`cumulusci/utils/yaml/model_parser.py`) keeps pydantic's default behaviour
of ignoring record keys that are not fields of the model, which is what
makes a record carrying both `namespace`+`version` and `ref` parse as a
`PackageNamespaceVersionDependency` (spec sections 4.1 and 8). -/
structure Record where
  github : Option String := none
  repo_owner : Option String := none
  repo_name : Option String := none
  tag : Option String := none
  ref : Option String := none
  unmanaged : Option Bool := none
  namespace_inject : Option String := none
  namespace_strip : Option String := none
  password_env_name : Option String := none
  skip : List String := []
  subfolder : Option String := none
  zip_url : Option String := none
  «namespace» : Option String := none
  version : Option String := none
  version_id : Option String := none
  package_name : Option String := none
  version_number : Option String := none
deriving DecidableEq

/-- Result of `_validate_github_parameters(values)`: `none` when the assert
fails (neither `github` nor the `repo_owner`+`repo_name` pair is truthy);
otherwise the possibly-normalized `(github, repo_owner, repo_name)` triple
(the deprecated pair is folded into a `github` URL and popped). -/
def validate_github_parameters (github repo_owner repo_name : Option String) :
    Option (Option String × Option String × Option String) :=
  if optTruthy github || (optTruthy repo_owner && optTruthy repo_name) then
    if !optTruthy github && optTruthy repo_name then
      some (some ("https://github.com/" ++ pyStr repo_owner ++ "/" ++ pyStr repo_name),
        none, none)
    else
      some (github, repo_owner, repo_name)
  else
    none

/-- `PackageNamespaceVersionDependency.parse_obj`: requires the `namespace`
and `version` keys. -/
def PackageNamespaceVersionDependency.fromRecord (r : Record) :
    Option PackageNamespaceVersionDependency :=
  match r.«namespace», r.version with
  | some ns, some v =>
      some { «namespace» := ns, version := v, package_name := r.package_name,
             password_env_name := r.password_env_name }
  | _, _ => none

/-- `PackageVersionIdDependency.parse_obj`: requires the `version_id` key. -/
def PackageVersionIdDependency.fromRecord (r : Record) :
    Option PackageVersionIdDependency :=
  match r.version_id with
  | some vid =>
      some { version_id := vid, package_name := r.package_name,
             version_number := r.version_number,
             password_env_name := r.password_env_name }
  | none => none

/-- `UnmanagedGitHubRefDependency.parse_obj`: requires the `ref` key and
runs `_validate_github_parameters` as a root validator. -/
def UnmanagedGitHubRefDependency.fromRecord (r : Record) :
    Option UnmanagedGitHubRefDependency :=
  match r.ref with
  | none => none
  | some ref =>
    match validate_github_parameters r.github r.repo_owner r.repo_name with
    | none => none
    | some (github, repo_owner, repo_name) =>
        some { repo_owner := repo_owner, repo_name := repo_name,
               github := github, ref := ref, unmanaged := r.unmanaged,
               subfolder := r.subfolder,
               namespace_inject := r.namespace_inject,
               namespace_strip := r.namespace_strip }

/-- `UnmanagedZipURLDependency.parse_obj`: requires the `zip_url` key. -/
def UnmanagedZipURLDependency.fromRecord (r : Record) :
    Option UnmanagedZipURLDependency :=
  match r.zip_url with
  | some url =>
      some { zip_url := url, unmanaged := r.unmanaged,
             subfolder := r.subfolder,
             namespace_inject := r.namespace_inject,
             namespace_strip := r.namespace_strip }
  | none => none

/-- `GitHubDynamicDependency.parse_obj`: the `check_complete` root
validator asserts that `ref` is `None` at creation and that the GitHub
location parameters validate; `check_unmanaged_values` rejects
`namespace_inject`/`namespace_strip` without `unmanaged = True`. -/
def GitHubDynamicDependency.fromRecord (r : Record) :
    Option GitHubDynamicDependency :=
  match r.ref with
  | some _ => none
  | none =>
    match validate_github_parameters r.github r.repo_owner r.repo_name with
    | none => none
    | some (github, repo_owner, repo_name) =>
      if !(r.unmanaged.getD false) &&
          (optTruthy r.namespace_inject || optTruthy r.namespace_strip) then
        none
      else
        some { github := github, repo_owner := repo_owner,
               repo_name := repo_name, tag := r.tag, ref := none,
               unmanaged := r.unmanaged.getD false,
               namespace_inject := r.namespace_inject,
               namespace_strip := r.namespace_strip,
               password_env_name := r.password_env_name,
               skip := r.skip, managed_dependency := none }

/-- `GitHubDynamicSubfolderDependency.parse_obj`: requires the `subfolder`
key; the inherited `check_complete` validator asserts `ref` is `None` and
validates the GitHub location parameters. -/
def GitHubDynamicSubfolderDependency.fromRecord (r : Record) :
    Option GitHubDynamicSubfolderDependency :=
  match r.subfolder with
  | none => none
  | some sub =>
    match r.ref with
    | some _ => none
    | none =>
      match validate_github_parameters r.github r.repo_owner r.repo_name with
      | none => none
      | some (github, repo_owner, repo_name) =>
          some { github := github, repo_owner := repo_owner,
                 repo_name := repo_name, tag := r.tag, ref := none,
                 subfolder := sub,
                 namespace_inject := r.namespace_inject,
                 namespace_strip := r.namespace_strip,
                 password_env_name := r.password_env_name,
                 managed_dependency := none }

/-- `parse_dependency(dep_dict)`: tries each variant's construction in the
fixed source order, returning the first success, `none` if every variant
raises a validation error. -/
def parse_dependency (r : Record) : Option Dependency :=
  match PackageNamespaceVersionDependency.fromRecord r with
  | some d => some (.static (.packageNamespaceVersion d))
  | none =>
    match PackageVersionIdDependency.fromRecord r with
    | some d => some (.static (.packageVersionId d))
    | none =>
      match UnmanagedGitHubRefDependency.fromRecord r with
      | some d => some (.static (.unmanagedGitHubRef d))
      | none =>
        match UnmanagedZipURLDependency.fromRecord r with
        | some d => some (.static (.unmanagedZipURL d))
        | none =>
          match GitHubDynamicDependency.fromRecord r with
          | some d => some (.githubDynamic d)
          | none =>
            match GitHubDynamicSubfolderDependency.fromRecord r with
            | some d => some (.githubDynamicSubfolder d)
            | none => none

/-! ### The flattener

The repository-hosting collaborator (`get_repo`, `directory_contents`,
`get_remote_project_config` and `get_package_data`) is an external
interface (spec section 6); it is modelled by `RemoteRepo`.
`directory_contents path ref = none` models github3 raising a
`NotFoundError` for a missing path; `some entries` models a successful
listing (the entry names). `project_dependencies ref` models the
`project__dependencies` list of the remote `cumulusci.yml` at `ref`, and
`package_namespace ref` the namespace returned by `get_package_data`.
All three are only consulted at a resolved ref. -/
structure RemoteRepo where
  directory_contents : String → String → Option (List String)
  project_dependencies : String → List Record
  package_namespace : String → Option String

/-- The `BaseProjectConfig` context, reduced to the only capability
`flatten` uses: `get_repo(url)`. -/
structure ProjectContext where
  get_repo : Option String → RemoteRepo

/-- Exceptions escaping `flatten`: `DependencyResolutionError` (with its
message) or an uncaught github3 `NotFoundError`. -/
inductive FlattenError where
  | dependencyResolutionError (msg : String)
  | notFoundError
deriving DecidableEq

instance {ε α : Type} [DecidableEq ε] [DecidableEq α] : DecidableEq (Except ε α)
  | .ok a, .ok b =>
    if h : a = b then .isTrue (by rw [h]) else .isFalse (by simp [h])
  | .error a, .error b =>
    if h : a = b then .isTrue (by rw [h]) else .isFalse (by simp [h])
  | .ok _, .error _ => .isFalse (by simp)
  | .error _, .ok _ => .isFalse (by simp)

/-- `GitHubDynamicDependency.description`. -/
def GitHubDynamicDependency.description (d : GitHubDynamicDependency) : String :=
  let unmanagedPart := if d.unmanaged then " (unmanaged)" else ""
  let loc := if optTruthy d.ref || optTruthy d.tag then
      " @" ++ pyStr (if optTruthy d.tag then d.tag else d.ref)
    else ""
  pyStr d.github ++ unmanagedPart ++ loc

/-- `GitHubDynamicSubfolderDependency.description`. -/
def GitHubDynamicSubfolderDependency.description
    (d : GitHubDynamicSubfolderDependency) : String :=
  let loc := if optTruthy d.ref || optTruthy d.tag then
      " @" ++ pyStr (if optTruthy d.tag then d.tag else d.ref)
    else ""
  pyStr d.github ++ "/" ++ d.subfolder ++ loc

/-- `GitHubDynamicSubfolderDependency.flatten`: converts to a single static
dependency after resolution, raising `DependencyResolutionError` when the
dependency is unresolved (`ref` is `None`). -/
def GitHubDynamicSubfolderDependency.flatten
    (d : GitHubDynamicSubfolderDependency) (_ctx : ProjectContext) :
    Except FlattenError (List Dependency) :=
  match d.ref with
  | none =>
      .error (.dependencyResolutionError
        ("Dependency " ++ d.description ++ " is not resolved and cannot be flattened."))
  | some ref =>
      .ok [.static (.unmanagedGitHubRef
        { github := d.github, ref := ref, subfolder := some d.subfolder,
          namespace_inject := d.namespace_inject,
          namespace_strip := d.namespace_strip })]

/-- `GitHubDynamicDependency._flatten_unpackaged(repo, subfolder, skip,
managed, namespace)`: locate unmanaged dependencies from a repository
subfolder. A missing directory (`NotFoundError`) is caught and treated as
empty; otherwise the entry names are enumerated in `sorted` order, entries
whose full path is in `skip` are dropped, and each remaining entry becomes
an `UnmanagedGitHubRefDependency`. `ref` is the dependency's resolved
`self.ref` (flatten only calls this once resolution is checked). -/
def GitHubDynamicDependency.flatten_unpackaged (d : GitHubDynamicDependency)
    (repo : RemoteRepo) (subfolder : String) (skip : List String)
    (managed : Bool) («namespace» : Option String) (ref : String) :
    List UnmanagedGitHubRefDependency :=
  match repo.directory_contents subfolder ref with
  | none => []
  | some contents =>
      ((List.insertionSort (fun a b => strLe a b = true) contents).filter
        (fun dirname => !skip.contains (subfolder ++ "/" ++ dirname))).map
        (fun dirname =>
          { github := d.github, ref := ref,
            subfolder := some (subfolder ++ "/" ++ dirname),
            unmanaged := some (!managed),
            namespace_inject :=
              if optTruthy «namespace» && managed then «namespace» else none,
            namespace_strip :=
              if optTruthy «namespace» && !managed then «namespace» else none })

/-- The src-or-managed-package step of `GitHubDynamicDependency.flatten`
(the middle of the list): when not managed, list the `src` directory (an
absent directory raises `NotFoundError`, which is not caught here) and
append one `UnmanagedGitHubRefDependency` for it when the listing is
truthy; when managed, append the resolver-supplied `managed_dependency`,
raising `DependencyResolutionError` when it is absent. -/
def GitHubDynamicDependency.src_or_package_deps (d : GitHubDynamicDependency)
    (repo : RemoteRepo) (ref : String) (managed : Bool) :
    Except FlattenError (List Dependency) :=
  if !managed then
    match repo.directory_contents "src" ref with
    | none => .error .notFoundError
    | some contents =>
      if !contents.isEmpty then
        .ok [.static (.unmanagedGitHubRef
          { github := d.github, ref := ref, subfolder := some "src",
            unmanaged := some d.unmanaged,
            namespace_inject := d.namespace_inject,
            namespace_strip := d.namespace_strip })]
      else
        .ok []
  else
    match d.managed_dependency with
    | none =>
        .error (.dependencyResolutionError
          ("Could not find latest release for " ++ d.description))
    | some md => .ok [.static md]

/-- `GitHubDynamicDependency.flatten`: find more dependencies based on
repository contents — the parsed `cumulusci.yml` dependencies, the
subfolders of `unpackaged/pre`, the contents of `src` (or the managed
package dependency), and the subfolders of `unpackaged/post`, in that
order. -/
def GitHubDynamicDependency.flatten (d : GitHubDynamicDependency)
    (ctx : ProjectContext) : Except FlattenError (List Dependency) :=
  match d.ref with
  | none =>
      .error (.dependencyResolutionError
        ("Dependency " ++ d.description ++ " is not resolved and cannot be flattened."))
  | some ref =>
    let repo := ctx.get_repo d.github
    let «namespace» := repo.package_namespace ref
    let parsed := (repo.project_dependencies ref).map parse_dependency
    if parsed.contains none then
      .error (.dependencyResolutionError
        ("Unable to flatten dependency " ++ d.description ++
          " because a transitive dependency could not be parsed."))
    else
      let managed := optTruthy «namespace» && !d.unmanaged
      let pre := (d.flatten_unpackaged repo "unpackaged/pre" d.skip false none ref).map
        (fun u => Dependency.static (.unmanagedGitHubRef u))
      match d.src_or_package_deps repo ref managed with
      | .error e => .error e
      | .ok mid =>
        let post := (d.flatten_unpackaged repo "unpackaged/post" d.skip managed
            «namespace» ref).map
          (fun u => Dependency.static (.unmanagedGitHubRef u))
        .ok (parsed.reduceOption ++ pre ++ mid ++ post)

/-! ### Installer dispatch -/

/-- The org state reader (spec section 6): the mapping of installed
package namespaces to the version ids installed for each, and the
`has_minimum_package_version` query. Both are external collaborator
capabilities, modelled as data. -/
structure OrgConfig where
  installed_packages : List (String × List String)
  has_minimum_package_version : String → String → Bool

/-- `PackageInstallOptions`, reduced to the only field this module
manipulates (`password`, set from the environment when a
`password_env_name` is configured); the remaining options and the
`retry_options` policy are passed through to the external package-install
collaborator unchanged. -/
structure PackageInstallOptions where
  password : Option String := none
deriving DecidableEq

/-- Outcome of `PackageNamespaceVersionDependency.install`: either the
logged idempotent skip, or the invocation of the external
`install_package_by_namespace_version` collaborator with the given
namespace, version and options. -/
inductive PackageInstallResult where
  | skipped
  | installByNamespaceVersion («namespace» version : String)
      (options : PackageInstallOptions)
deriving DecidableEq

/-- The beta-token conversion inside
`PackageNamespaceVersionDependency.install`: a version string containing
"Beta" is split on spaces, and the first word is joined with `b` and the
last word stripped of `)` — e.g. `1.2 (Beta 3)` becomes `1.2b3`. Other
version strings pass through unchanged. -/
def pnvCheckVersion (version : String) : String :=
  if strContainsSub "Beta" version then
    let version_string := (pySplitChar ' ' version).headD ""
    let beta := pyStripChar ')' ((pySplitChar ' ' version).getLastD "")
    version_string ++ "b" ++ beta
  else
    version

/-- `PackageNamespaceVersionDependency.install`: set the password option
from the environment if configured, convert the version to its internal
beta token, skip when `has_minimum_package_version` is already satisfied,
and otherwise invoke the package-install collaborator with the
dependency's namespace and (original) version string. -/
def PackageNamespaceVersionDependency.install
    (d : PackageNamespaceVersionDependency) (org : OrgConfig)
    (env : String → Option String) (options : Option PackageInstallOptions) :
    PackageInstallResult :=
  let options := options.getD {}
  let options := if optTruthy d.password_env_name then
      { options with password := env (pyStr d.password_env_name) }
    else options
  let version := pnvCheckVersion d.version
  if org.has_minimum_package_version d.«namespace» version then
    .skipped
  else
    .installByNamespaceVersion d.«namespace» d.version options

/-- The `UnmanagedDependency` abstract base class: tagged union of the two
unmanaged static variants. -/
inductive UnmanagedDependency where
  | githubRef : UnmanagedGitHubRefDependency → UnmanagedDependency
  | zipURL : UnmanagedZipURLDependency → UnmanagedDependency
deriving DecidableEq

/-- The shared `unmanaged` field. -/
def UnmanagedDependency.unmanaged : UnmanagedDependency → Option Bool
  | .githubRef d => d.unmanaged
  | .zipURL d => d.unmanaged

/-- The shared `namespace_inject` field. -/
def UnmanagedDependency.namespace_inject : UnmanagedDependency → Option String
  | .githubRef d => d.namespace_inject
  | .zipURL d => d.namespace_inject

/-- The shared `namespace_strip` field. -/
def UnmanagedDependency.namespace_strip : UnmanagedDependency → Option String
  | .githubRef d => d.namespace_strip
  | .zipURL d => d.namespace_strip

/-- `UnmanagedDependency._get_unmanaged(org)`: when the `unmanaged` flag is
not explicitly configured, default it to whether `namespace_inject` is
absent from the org's installed packages (or `True` when no
`namespace_inject` is configured); otherwise return the explicit flag. -/
def UnmanagedDependency.get_unmanaged (d : UnmanagedDependency)
    (org : OrgConfig) : Bool :=
  match d.unmanaged with
  | none =>
    if optTruthy d.namespace_inject then
      !(org.installed_packages.map Prod.fst).contains (pyStr d.namespace_inject)
    else
      true
  | some b => b

/-- The `options` dict that `UnmanagedDependency.install` passes to
`MetadataPackageZipBuilder.from_zipfile`. -/
structure DeployOptions where
  unmanaged : Bool
  namespace_inject : Option String
  namespace_strip : Option String
deriving DecidableEq

/-- The namespace-option computation inside `UnmanagedDependency.install`:
the deploy collaborator receives `unmanaged := _get_unmanaged(org)`
together with the configured `namespace_inject`/`namespace_strip`. -/
def UnmanagedDependency.install_options (d : UnmanagedDependency)
    (org : OrgConfig) : DeployOptions :=
  { unmanaged := d.get_unmanaged org,
    namespace_inject := d.namespace_inject,
    namespace_strip := d.namespace_strip }

/-- Modelled from the spec: the metadata package builder
(`MetadataPackageZipBuilder`, outside `src/`) "builds a metadata package
payload from the zip with the namespace options applied"; it injects the
target namespace into the metadata exactly when a `namespace_inject`
namespace is supplied and the options are not `unmanaged` (an unmanaged
deploy replaces the namespace tokens with the empty string, i.e. deploys
the metadata raw). -/
def DeployOptions.injectsNamespace (o : DeployOptions) : Bool :=
  optTruthy o.namespace_inject && !o.unmanaged

/-! ### Structural equality and hashing -/

/-- JSON-style rendering of an optional string field value, used by the
serialisation fingerprint. -/
def jsonOptStr : Option String → String
  | none => "null"
  | some s => s

/-- Field-value serialisation of a `StaticDependency`, modelling the
variant's `.json()` output: a deterministic rendering of every declared
field, in declaration order. -/
def StaticDependency.fingerprint : StaticDependency → List String
  | .packageNamespaceVersion d =>
      ["PackageNamespaceVersionDependency", d.«namespace», d.version,
       jsonOptStr d.package_name, jsonOptStr d.password_env_name]
  | .packageVersionId d =>
      ["PackageVersionIdDependency", d.version_id, jsonOptStr d.package_name,
       jsonOptStr d.version_number, jsonOptStr d.password_env_name]
  | .unmanagedGitHubRef d =>
      ["UnmanagedGitHubRefDependency", jsonOptStr d.repo_owner,
       jsonOptStr d.repo_name, jsonOptStr d.github, d.ref,
       toString d.unmanaged, jsonOptStr d.subfolder,
       jsonOptStr d.namespace_inject, jsonOptStr d.namespace_strip]
  | .unmanagedZipURL d =>
      ["UnmanagedZipURLDependency", d.zip_url, toString d.unmanaged,
       jsonOptStr d.subfolder, jsonOptStr d.namespace_inject,
       jsonOptStr d.namespace_strip]

/-- Field-value serialisation of a `Dependency`, modelling
`HashableBaseModel.__hash__`'s `(type(self),) + tuple(self.json())` input:
the variant (class) tag followed by a deterministic rendering of every
field value, recursing into `managed_dependency`. -/
def Dependency.fingerprint : Dependency → List String
  | .static s => "StaticDependency" :: s.fingerprint
  | .githubDynamic d =>
      ["GitHubDynamicDependency", jsonOptStr d.github, jsonOptStr d.repo_owner,
       jsonOptStr d.repo_name, jsonOptStr d.tag, jsonOptStr d.ref,
       toString d.unmanaged, jsonOptStr d.namespace_inject,
       jsonOptStr d.namespace_strip, jsonOptStr d.password_env_name,
       toString d.skip] ++
      (match d.managed_dependency with
       | none => ["null"]
       | some md => md.fingerprint)
  | .githubDynamicSubfolder d =>
      ["GitHubDynamicSubfolderDependency", jsonOptStr d.github,
       jsonOptStr d.repo_owner, jsonOptStr d.repo_name, jsonOptStr d.tag,
       jsonOptStr d.ref, d.subfolder, jsonOptStr d.namespace_inject,
       jsonOptStr d.namespace_strip, jsonOptStr d.password_env_name] ++
      (match d.managed_dependency with
       | none => ["null"]
       | some md => md.fingerprint)

/-- `HashableBaseModel.__hash__` modelled as a deterministic digest of the
variant tag and the serialised field values. -/
def hashDep (d : Dependency) : Nat :=
  d.fingerprint.foldl
    (fun a s => s.toList.foldl (fun b c => b * 31 + c.toNat) (a * 33 + 7)) 5381

/-! ### Concrete example inputs used by witnesses and counterexamples -/

/-- A concrete remote repository: one declared transitive dependency, two
`unpackaged/pre` subfolders (listed unsorted), a `src` directory and one
`unpackaged/post` subfolder, all at ref "abc"; the declared package
namespace is "ns". -/
def exampleRepo : RemoteRepo :=
  { directory_contents := fun path ref =>
      if ref = "abc" then
        if path = "unpackaged/pre" then some ["b", "a"]
        else if path = "src" then some ["classes"]
        else if path = "unpackaged/post" then some ["c"]
        else none
      else none
    project_dependencies := fun ref =>
      if ref = "abc" then [{ «namespace» := some "ns2", version := some "1.0" }] else []
    package_namespace := fun ref => if ref = "abc" then some "ns" else none }

/-- A project context serving `exampleRepo` for every URL. -/
def exampleContext : ProjectContext := { get_repo := fun _ => exampleRepo }

/-- The same repository with the `src` directory absent (404). -/
def exampleRepoNoSrc : RemoteRepo :=
  { exampleRepo with
    directory_contents := fun path ref =>
      if path = "src" then none else exampleRepo.directory_contents path ref }

/-- A project context serving `exampleRepoNoSrc` for every URL. -/
def exampleContextNoSrc : ProjectContext := { get_repo := fun _ => exampleRepoNoSrc }

/-- A resolved dynamic dependency installed unmanaged, skipping
`unpackaged/pre/b`. -/
def exampleUnmanagedDep : GitHubDynamicDependency :=
  { github := some "https://github.com/a/b", ref := some "abc", unmanaged := true,
    skip := ["unpackaged/pre/b"] }

/-- A resolved dynamic dependency with a resolver-supplied managed package
dependency. -/
def exampleManagedDep : GitHubDynamicDependency :=
  { github := some "https://github.com/a/b", ref := some "abc",
    managed_dependency := some (.packageNamespaceVersion
      { «namespace» := "ns", version := "1.9" }) }

/-- An org with no packages installed, satisfying no minimum version. -/
def exampleEmptyOrg : OrgConfig :=
  { installed_packages := [], has_minimum_package_version := fun _ _ => false }

/-- An org with namespace "ns" installed, whose only satisfied minimum
version query is ("foo", "1.2b3"). -/
def exampleOrg : OrgConfig :=
  { installed_packages := [("ns", ["04t000000000001"])],
    has_minimum_package_version := fun ns v => ns = "foo" && v = "1.2b3" }

/-! ### Order lemmas for the lexicographic sort -/

theorem cons_le_cons_iff (a : Char) (l₁ l₂ : List Char) :
    a :: l₁ ≤ a :: l₂ ↔ l₁ ≤ l₂ := by
  constructor
  · intro h
    rcases lt_or_eq_of_le h with hlt | heq
    · cases hlt with
      | cons h => exact le_of_lt h
      | rel h => exact absurd h (lt_irrefl a)
    · simp only [List.cons.injEq, true_and] at heq
      exact le_of_eq heq
  · exact List.cons_le_cons a

theorem charListLe_iff : ∀ (a b : List Char), charListLe a b = true ↔ a ≤ b
  | [], b => by simp [charListLe]
  | x :: xs, [] => by
    simp only [charListLe, Bool.false_eq_true, false_iff]
    intro h
    rcases lt_or_eq_of_le h with hlt | heq
    · cases hlt
    · exact absurd heq (by simp)
  | x :: xs, y :: ys => by
    by_cases hxy : x < y
    · simp only [charListLe, if_pos hxy, true_iff]
      exact le_of_lt (List.Lex.rel hxy)
    · by_cases hyx : y < x
      · simp only [charListLe, if_neg hxy, if_pos hyx, Bool.false_eq_true, false_iff]
        intro h
        rcases lt_or_eq_of_le h with hlt | heq
        · cases hlt with
          | cons h => exact absurd rfl (ne_of_gt hyx)
          | rel h => exact absurd h hxy
        · simp only [List.cons.injEq] at heq
          exact absurd heq.1 (ne_of_gt hyx)
      · have hEq : x = y := le_antisymm (not_lt.mp hyx) (not_lt.mp hxy)
        subst hEq
        simp only [charListLe, if_neg hxy, if_neg hyx]
        exact (charListLe_iff xs ys).trans (cons_le_cons_iff x xs ys).symm

theorem strLe_iff {a b : String} : strLe a b = true ↔ a ≤ b := by
  rw [String.le_iff_toList_le]
  exact charListLe_iff a.toList b.toList

theorem strLe_total (a b : String) : strLe a b = true ∨ strLe b a = true := by
  rw [strLe_iff, strLe_iff]
  exact le_total a b

theorem strLe_trans {a b c : String} (h₁ : strLe a b = true)
    (h₂ : strLe b c = true) : strLe a c = true := by
  rw [strLe_iff] at h₁ h₂ ⊢
  exact le_trans h₁ h₂

theorem sorted_insertionSort_strLe (l : List String) :
    List.Sorted (fun a b => strLe a b = true)
      (List.insertionSort (fun a b => strLe a b = true) l) := by
  haveI : IsTotal String (fun a b => strLe a b = true) := ⟨strLe_total⟩
  haveI : IsTrans String (fun a b => strLe a b = true) := ⟨fun _ _ _ => strLe_trans⟩
  exact List.sorted_insertionSort _ l

theorem str_append_left_le (p : String) {a b : String} (h : a ≤ b) :
    p ++ a ≤ p ++ b := by
  rcases lt_or_eq_of_le h with hlt | heq
  · refine le_of_lt ?_
    rw [String.lt_iff_toList_lt] at hlt ⊢
    show (p ++ a).data < (p ++ b).data
    rw [String.data_append, String.data_append]
    exact List.Lex.append_left _ hlt _
  · rw [heq]

/-! ### Claim theorems -/

/-- C3: flattening a dynamic GitHub dependency (either variant) whose `ref`
is `None` raises `DependencyResolutionError`, for every context — the
outcome does not depend on the context at all, so no remote fetch can have
been attempted. -/
theorem claimC3_unresolved_flatten_raises (ctx : ProjectContext)
    (d₁ : GitHubDynamicDependency) (d₂ : GitHubDynamicSubfolderDependency)
    (h₁ : d₁.ref = none) (h₂ : d₂.ref = none) :
    d₁.flatten ctx = .error (.dependencyResolutionError
      ("Dependency " ++ d₁.description ++ " is not resolved and cannot be flattened."))
    ∧ d₂.flatten ctx = .error (.dependencyResolutionError
      ("Dependency " ++ d₂.description ++ " is not resolved and cannot be flattened.")) := by
  constructor
  · unfold GitHubDynamicDependency.flatten
    rw [h₁]
  · unfold GitHubDynamicSubfolderDependency.flatten
    rw [h₂]

/-- Witness for C3 at concrete unresolved dependencies. -/
theorem claimC3_witness :
    ({ github := some "https://github.com/a/b" } : GitHubDynamicDependency).flatten
        exampleContext
      = .error (.dependencyResolutionError
        "Dependency https://github.com/a/b is not resolved and cannot be flattened.")
    ∧ ({ github := some "https://github.com/a/b", subfolder := "pre" } :
          GitHubDynamicSubfolderDependency).flatten exampleContext
      = .error (.dependencyResolutionError
        "Dependency https://github.com/a/b/pre is not resolved and cannot be flattened.") := by
  have h := claimC3_unresolved_flatten_raises exampleContext
    { github := some "https://github.com/a/b" }
    { github := some "https://github.com/a/b", subfolder := "pre" } rfl rfl
  simpa using h

/-- C4: a record with a populated `ref` key fails construction of both
dynamic GitHub dependency variants (the `check_complete` validator asserts
`ref` is `None` at creation). -/
theorem claimC4_preset_ref_rejected (r : Record) (s : String)
    (h : r.ref = some s) :
    GitHubDynamicDependency.fromRecord r = none
    ∧ GitHubDynamicSubfolderDependency.fromRecord r = none := by
  constructor
  · unfold GitHubDynamicDependency.fromRecord
    rw [h]
  · unfold GitHubDynamicSubfolderDependency.fromRecord
    cases hsub : r.subfolder with
    | none => rfl
    | some sub => rw [h]

/-- Witness for C4 at a concrete record carrying a `ref`. -/
theorem claimC4_witness :
    GitHubDynamicDependency.fromRecord
        { github := some "https://github.com/a/b", ref := some "abc",
          subfolder := some "pre" } = none
    ∧ GitHubDynamicSubfolderDependency.fromRecord
        { github := some "https://github.com/a/b", ref := some "abc",
          subfolder := some "pre" } = none :=
  claimC4_preset_ref_rejected
    { github := some "https://github.com/a/b", ref := some "abc",
      subfolder := some "pre" } "abc" rfl

/-- C9: two dependencies with identical field values are equal (value
semantics), hash identically under the `HashableBaseModel` hash model, and
deduplicate to a single element in set-like collection (`dedup`). -/
theorem claimC9_structural_eq_hash (d₁ d₂ : Dependency) (h : d₁ = d₂) :
    hashDep d₁ = hashDep d₂ ∧ [d₁, d₂].dedup = [d₁]
    ∧ ∀ l : List Dependency, d₁ ∈ l → l.dedup.count d₁ = 1 := by
  subst h
  refine ⟨rfl, ?_, ?_⟩
  · rw [List.dedup_cons_of_mem (by simp),
      List.dedup_cons_of_not_mem (by simp), List.dedup_nil]
  · intro l hl
    rw [List.count_dedup, if_pos hl]

/-- Witness for C9 at a concrete pair of identically-built dependencies. -/
theorem claimC9_witness :
    hashDep (.static (.packageNamespaceVersion { «namespace» := "ns", version := "1.0" }))
      = hashDep (.static (.packageNamespaceVersion { «namespace» := "ns", version := "1.0" }))
    ∧ [Dependency.static (.packageNamespaceVersion { «namespace» := "ns", version := "1.0" }),
        .static (.packageNamespaceVersion { «namespace» := "ns", version := "1.0" })].dedup
      = [.static (.packageNamespaceVersion { «namespace» := "ns", version := "1.0" })] := by
  have h := claimC9_structural_eq_hash
    (.static (.packageNamespaceVersion { «namespace» := "ns", version := "1.0" }))
    (.static (.packageNamespaceVersion { «namespace» := "ns", version := "1.0" })) rfl
  exact ⟨h.1, h.2.1⟩

/-- C7: for a `PackageNamespaceVersionDependency` with version
"1.2 (Beta 3)", `install` converts the version to the internal beta token
"1.2b3"; when `has_minimum_package_version(namespace, "1.2b3")` holds the
install is a skip (no collaborator call), and otherwise the
package-install collaborator is invoked for the dependency's namespace and
version (the collaborator receives the original version string, which
denotes the same package version as the beta token it converts
internally). -/
theorem claimC7_beta_version_install (d : PackageNamespaceVersionDependency)
    (org : OrgConfig) (env : String → Option String)
    (options : Option PackageInstallOptions)
    (hv : d.version = "1.2 (Beta 3)") :
    pnvCheckVersion d.version = "1.2b3"
    ∧ (org.has_minimum_package_version d.«namespace» "1.2b3" = true →
        d.install org env options = .skipped)
    ∧ (org.has_minimum_package_version d.«namespace» "1.2b3" = false →
        ∃ opts, d.install org env options =
          .installByNamespaceVersion d.«namespace» d.version opts) := by
  have hconv : pnvCheckVersion "1.2 (Beta 3)" = "1.2b3" := by decide
  refine ⟨hv ▸ hconv, ?_, ?_⟩ <;> intro h <;>
    unfold PackageNamespaceVersionDependency.install <;>
    rw [hv, hconv] <;> simp only [h]
  · simp
  · exact ⟨if optTruthy d.password_env_name = true then
        { password := env (pyStr d.password_env_name) }
      else options.getD { password := none }, by simp⟩

/-- Witness for C7: with the minimum version absent, the collaborator is
invoked; with it present, the install is skipped. -/
theorem claimC7_witness :
    PackageNamespaceVersionDependency.install
        { «namespace» := "foo", version := "1.2 (Beta 3)" } exampleOrg
        (fun _ => none) none = .skipped
    ∧ PackageNamespaceVersionDependency.install
        { «namespace» := "bar", version := "1.2 (Beta 3)" } exampleOrg
        (fun _ => none) none
      = .installByNamespaceVersion "bar" "1.2 (Beta 3)" { password := none } := by
  constructor
  · exact (claimC7_beta_version_install
      { «namespace» := "foo", version := "1.2 (Beta 3)" } exampleOrg
      (fun _ => none) none rfl).2.1 (by decide)
  · have h := (claimC7_beta_version_install
      { «namespace» := "bar", version := "1.2 (Beta 3)" } exampleOrg
      (fun _ => none) none rfl).2.2 (by decide)
    obtain ⟨opts, hopts⟩ := h
    rw [hopts]
    have : opts = { password := none } := by
      have := hopts.symm.trans (by decide :
        PackageNamespaceVersionDependency.install
          { «namespace» := "bar", version := "1.2 (Beta 3)" } exampleOrg
          (fun _ => none) none
        = .installByNamespaceVersion "bar" "1.2 (Beta 3)" { password := none })
      cases this
      rfl
    rw [this]

/-- C8 counterexample: an unmanaged dependency with neither
`namespace_inject` nor `namespace_strip` configured deploys raw
(`unmanaged = true`, no namespace injected) even against an org with no
packages installed at all — although every conceivable target namespace is
"not already installed", no injection takes place, refuting "inject the
namespace if and only if the target namespace is not already installed". -/
theorem claimC8_counterexample :
    (UnmanagedDependency.zipURL
        { zip_url := "https://example.com/x.zip" }).install_options exampleEmptyOrg
      = { unmanaged := true, namespace_inject := none, namespace_strip := none }
    ∧ DeployOptions.injectsNamespace
        ((UnmanagedDependency.zipURL
          { zip_url := "https://example.com/x.zip" }).install_options exampleEmptyOrg)
      = false
    ∧ exampleEmptyOrg.installed_packages = [] := by
  refine ⟨rfl, rfl, rfl⟩

/-- C8 amended: when the `unmanaged` flag is not explicitly configured,
the deploy injects the namespace if and only if `namespace_inject` is
configured and that namespace is already installed in the org; in
particular, with neither `namespace_inject` nor `namespace_strip`
configured the metadata is always deployed raw. -/
theorem claimC8_injection_default (d : UnmanagedDependency) (org : OrgConfig)
    (h : d.unmanaged = none) :
    ((d.install_options org).injectsNamespace
      = (optTruthy d.namespace_inject &&
          (org.installed_packages.map Prod.fst).contains (pyStr d.namespace_inject)))
    ∧ (d.namespace_inject = none → d.namespace_strip = none →
        d.install_options org
          = { unmanaged := true, namespace_inject := none, namespace_strip := none }) := by
  constructor
  · unfold UnmanagedDependency.install_options DeployOptions.injectsNamespace
      UnmanagedDependency.get_unmanaged
    rw [h]
    cases hI : optTruthy d.namespace_inject <;> simp [hI]
  · intro hInj hStrip
    unfold UnmanagedDependency.install_options UnmanagedDependency.get_unmanaged
    rw [h, hInj, hStrip]
    rfl

/-- Witness for the amended C8: with `namespace_inject = "ns"` configured
and namespace "ns" installed in the org, the namespace is injected. -/
theorem claimC8_witness :
    DeployOptions.injectsNamespace
      ((UnmanagedDependency.zipURL
        { zip_url := "https://example.com/x.zip",
          namespace_inject := some "ns" }).install_options exampleOrg) = true := by
  have h := (claimC8_injection_default
    (UnmanagedDependency.zipURL
      { zip_url := "https://example.com/x.zip", namespace_inject := some "ns" })
    exampleOrg rfl).1
  rw [h]
  decide

/-- C2: `parse_dependency` attempts the six variants in the fixed source
order and returns the first whose construction succeeds: each conjunct
states that when every earlier variant rejects the record and a variant
accepts it, that variant's result is returned; when all six reject, the
result is `none`. The final conjunct is the ordering consequence the spec
highlights: a record carrying `namespace`+`version` (even together with a
`ref`) parses as a `PackageNamespaceVersionDependency`, never as a dynamic
variant. -/
theorem claimC2_parse_order (r : Record) :
    (∀ d, PackageNamespaceVersionDependency.fromRecord r = some d →
      parse_dependency r = some (.static (.packageNamespaceVersion d)))
    ∧ (PackageNamespaceVersionDependency.fromRecord r = none →
       ∀ d, PackageVersionIdDependency.fromRecord r = some d →
        parse_dependency r = some (.static (.packageVersionId d)))
    ∧ (PackageNamespaceVersionDependency.fromRecord r = none →
       PackageVersionIdDependency.fromRecord r = none →
       ∀ d, UnmanagedGitHubRefDependency.fromRecord r = some d →
        parse_dependency r = some (.static (.unmanagedGitHubRef d)))
    ∧ (PackageNamespaceVersionDependency.fromRecord r = none →
       PackageVersionIdDependency.fromRecord r = none →
       UnmanagedGitHubRefDependency.fromRecord r = none →
       ∀ d, UnmanagedZipURLDependency.fromRecord r = some d →
        parse_dependency r = some (.static (.unmanagedZipURL d)))
    ∧ (PackageNamespaceVersionDependency.fromRecord r = none →
       PackageVersionIdDependency.fromRecord r = none →
       UnmanagedGitHubRefDependency.fromRecord r = none →
       UnmanagedZipURLDependency.fromRecord r = none →
       ∀ d, GitHubDynamicDependency.fromRecord r = some d →
        parse_dependency r = some (.githubDynamic d))
    ∧ (PackageNamespaceVersionDependency.fromRecord r = none →
       PackageVersionIdDependency.fromRecord r = none →
       UnmanagedGitHubRefDependency.fromRecord r = none →
       UnmanagedZipURLDependency.fromRecord r = none →
       GitHubDynamicDependency.fromRecord r = none →
       ∀ d, GitHubDynamicSubfolderDependency.fromRecord r = some d →
        parse_dependency r = some (.githubDynamicSubfolder d))
    ∧ (PackageNamespaceVersionDependency.fromRecord r = none →
       PackageVersionIdDependency.fromRecord r = none →
       UnmanagedGitHubRefDependency.fromRecord r = none →
       UnmanagedZipURLDependency.fromRecord r = none →
       GitHubDynamicDependency.fromRecord r = none →
       GitHubDynamicSubfolderDependency.fromRecord r = none →
        parse_dependency r = none)
    ∧ (∀ ns v, r.«namespace» = some ns → r.version = some v →
        parse_dependency r = some (.static (.packageNamespaceVersion
          { «namespace» := ns, version := v, package_name := r.package_name,
            password_env_name := r.password_env_name }))) := by
  refine ⟨?_, ?_, ?_, ?_, ?_, ?_, ?_, ?_⟩
  · intro d h
    unfold parse_dependency
    rw [h]
  · intro h₁ d h
    unfold parse_dependency
    rw [h₁, h]
  · intro h₁ h₂ d h
    unfold parse_dependency
    rw [h₁, h₂, h]
  · intro h₁ h₂ h₃ d h
    unfold parse_dependency
    rw [h₁, h₂, h₃, h]
  · intro h₁ h₂ h₃ h₄ d h
    unfold parse_dependency
    rw [h₁, h₂, h₃, h₄, h]
  · intro h₁ h₂ h₃ h₄ h₅ d h
    unfold parse_dependency
    rw [h₁, h₂, h₃, h₄, h₅, h]
  · intro h₁ h₂ h₃ h₄ h₅ h₆
    unfold parse_dependency
    rw [h₁, h₂, h₃, h₄, h₅, h₆]
  · intro ns v hns hv
    unfold parse_dependency
    unfold PackageNamespaceVersionDependency.fromRecord
    rw [hns, hv]

/-- Witness for C2: a record with `namespace`, `version` and `ref` parses
as a `PackageNamespaceVersionDependency`, not as a dynamic variant. -/
theorem claimC2_witness :
    parse_dependency
        { «namespace» := some "ns", version := some "1.0", ref := some "abc",
          github := some "https://github.com/a/b" }
      = some (.static (.packageNamespaceVersion
          { «namespace» := "ns", version := "1.0" })) := by
  have h := (claimC2_parse_order
    { «namespace» := some "ns", version := some "1.0", ref := some "abc",
      github := some "https://github.com/a/b" }).2.2.2.2.2.2.2 "ns" "1.0" rfl rfl
  simpa using h

/-- Projecting the `subfolder` field out of a list of constructed
dependencies recovers the underlying path list. -/
theorem filterMap_subfolder_map (f : String → UnmanagedGitHubRefDependency)
    (g : String → String) (hfg : ∀ s, (f s).subfolder = some (g s))
    (l : List String) :
    (l.map f).filterMap (fun e => e.subfolder) = l.map g := by
  induction l with
  | nil => rfl
  | cons a l ih => simp [List.filterMap_cons, hfg, ih]

/-- C5: the `unpackaged/pre` flattening step (invoked by `flatten` with
`managed := false` and `namespace := none`): a missing directory yields the
empty list without error; no produced dependency carries any namespace
injection (or strip); every produced dependency corresponds to a directory
entry whose full path is not in the skip list; every directory entry not
skipped is produced; and the produced subfolder paths are sorted
lexicographically. -/
theorem claimC5_pre_subfolders (d : GitHubDynamicDependency)
    (repo : RemoteRepo) (ref : String) :
    (repo.directory_contents "unpackaged/pre" ref = none →
      d.flatten_unpackaged repo "unpackaged/pre" d.skip false none ref = [])
    ∧ (∀ e ∈ d.flatten_unpackaged repo "unpackaged/pre" d.skip false none ref,
        e.namespace_inject = none ∧ e.namespace_strip = none)
    ∧ (∀ cs, repo.directory_contents "unpackaged/pre" ref = some cs →
        ∀ e ∈ d.flatten_unpackaged repo "unpackaged/pre" d.skip false none ref,
          ∃ dn, dn ∈ cs ∧ e.subfolder = some ("unpackaged/pre" ++ "/" ++ dn)
            ∧ ("unpackaged/pre" ++ "/" ++ dn) ∉ d.skip)
    ∧ (∀ cs, repo.directory_contents "unpackaged/pre" ref = some cs →
        ∀ dn ∈ cs, ("unpackaged/pre" ++ "/" ++ dn) ∉ d.skip →
          ∃ e ∈ d.flatten_unpackaged repo "unpackaged/pre" d.skip false none ref,
            e.subfolder = some ("unpackaged/pre" ++ "/" ++ dn))
    ∧ List.Sorted (· ≤ ·)
        ((d.flatten_unpackaged repo "unpackaged/pre" d.skip false none ref).filterMap
          (fun e => e.subfolder)) := by
  unfold GitHubDynamicDependency.flatten_unpackaged
  cases hc : repo.directory_contents "unpackaged/pre" ref with
  | none =>
    refine ⟨fun _ => rfl, by simp, ?_, ?_, by simp⟩
    · intro cs hcs
      simp at hcs
    · intro cs hcs
      simp at hcs
  | some cs =>
    refine ⟨by simp, ?_, ?_, ?_, ?_⟩
    · intro e he
      simp only [List.mem_map] at he
      obtain ⟨dn, _, rfl⟩ := he
      exact ⟨rfl, rfl⟩
    · intro cs' hcs' e he
      rw [Option.some_inj] at hcs'
      subst hcs'
      simp only [List.mem_map, List.mem_filter] at he
      obtain ⟨dn, ⟨hmem, hskip⟩, rfl⟩ := he
      refine ⟨dn, ?_, rfl, ?_⟩
      · exact (List.mem_insertionSort _).mp hmem
      · intro hIn
        have h1 : d.skip.elem ("unpackaged/pre" ++ "/" ++ dn) = true :=
          List.elem_iff.mpr hIn
        rw [Bool.not_eq_eq_eq_not, Bool.not_true] at hskip
        exact absurd (h1.symm.trans hskip) (by decide)
    · intro cs' hcs' dn hdn hskip
      rw [Option.some_inj] at hcs'
      subst hcs'
      refine ⟨_, List.mem_map_of_mem _ ?_, rfl⟩
      rw [List.mem_filter]
      refine ⟨(List.mem_insertionSort _).mpr hdn, ?_⟩
      cases hb : d.skip.elem ("unpackaged/pre" ++ "/" ++ dn) with
      | true => exact absurd (List.elem_iff.mp hb) hskip
      | false =>
        rw [show d.skip.contains ("unpackaged/pre" ++ "/" ++ dn)
          = d.skip.elem ("unpackaged/pre" ++ "/" ++ dn) from rfl, hb]
        rfl
    · rw [filterMap_subfolder_map _ (fun dn => "unpackaged/pre" ++ "/" ++ dn)
        (fun _ => rfl)]
      have hp : List.Pairwise (fun a b => strLe a b = true)
          ((List.insertionSort (fun a b => strLe a b = true) cs).filter
            (fun dirname => !d.skip.contains ("unpackaged/pre" ++ "/" ++ dirname))) :=
        (sorted_insertionSort_strLe cs).sublist (List.filter_sublist _)
      exact List.Pairwise.map _
        (fun a b hab => str_append_left_le "unpackaged/pre"
          (str_append_left_le "/" (strLe_iff.mp hab))) hp

/-- Witness for C5: a missing `unpackaged/pre` directory (at unknown ref
"zzz") yields the empty list, and the produced pre dependency for
subfolder `a` at ref "abc" carries no namespace injection. -/
theorem claimC5_witness :
    exampleUnmanagedDep.flatten_unpackaged exampleRepo "unpackaged/pre"
        exampleUnmanagedDep.skip false none "zzz" = []
    ∧ ({ github := some "https://github.com/a/b", ref := "abc",
          subfolder := some "unpackaged/pre/a",
          unmanaged := some true } : UnmanagedGitHubRefDependency).namespace_inject
        = none := by
  constructor
  · exact (claimC5_pre_subfolders exampleUnmanagedDep exampleRepo "zzz").1 rfl
  · exact ((claimC5_pre_subfolders exampleUnmanagedDep exampleRepo "abc").2.1
      _ (by decide)).1

/-- Success equation for `GitHubDynamicDependency.flatten`: when the
dependency is resolved, every transitive declaration parses, and the
src-or-package step succeeds with `mid`, the result is the concatenation
of the four segments in source order. -/
theorem flatten_success_eq (ctx : ProjectContext) (d : GitHubDynamicDependency)
    (ref : String) (mid : List Dependency)
    (h : d.ref = some ref)
    (hparse : (((ctx.get_repo d.github).project_dependencies ref).map
      parse_dependency).contains none = false)
    (hmid : d.src_or_package_deps (ctx.get_repo d.github) ref
      (optTruthy ((ctx.get_repo d.github).package_namespace ref) && !d.unmanaged)
      = .ok mid) :
    d.flatten ctx = .ok (
      (((ctx.get_repo d.github).project_dependencies ref).map
        parse_dependency).reduceOption
      ++ (d.flatten_unpackaged (ctx.get_repo d.github) "unpackaged/pre" d.skip
            false none ref).map
          (fun u => Dependency.static (.unmanagedGitHubRef u))
      ++ mid
      ++ (d.flatten_unpackaged (ctx.get_repo d.github) "unpackaged/post" d.skip
            (optTruthy ((ctx.get_repo d.github).package_namespace ref) && !d.unmanaged)
            ((ctx.get_repo d.github).package_namespace ref) ref).map
          (fun u => Dependency.static (.unmanagedGitHubRef u))) := by
  unfold GitHubDynamicDependency.flatten
  rw [h]
  simp only [hparse, hmid, Bool.false_eq_true, if_false]

/-- Error propagation for `GitHubDynamicDependency.flatten`: a failing
src-or-package step aborts the flatten with the same error. -/
theorem flatten_error_eq (ctx : ProjectContext) (d : GitHubDynamicDependency)
    (ref : String) (e : FlattenError)
    (h : d.ref = some ref)
    (hparse : (((ctx.get_repo d.github).project_dependencies ref).map
      parse_dependency).contains none = false)
    (hmid : d.src_or_package_deps (ctx.get_repo d.github) ref
      (optTruthy ((ctx.get_repo d.github).package_namespace ref) && !d.unmanaged)
      = .error e) :
    d.flatten ctx = .error e := by
  unfold GitHubDynamicDependency.flatten
  rw [h]
  simp only [hparse, hmid, Bool.false_eq_true, if_false]

/-- C1: for a resolved `GitHubDynamicDependency` whose flatten succeeds,
the result is exactly the concatenation, in order, of the parsed
transitive dependencies declared by the remote config at the ref, the
`unpackaged/pre` subfolder dependencies, the src-or-managed-package
segment, and the `unpackaged/post` subfolder dependencies. -/
theorem claimC1_flatten_order (ctx : ProjectContext)
    (d : GitHubDynamicDependency) (ref : String) (mid : List Dependency)
    (h : d.ref = some ref)
    (hparse : (((ctx.get_repo d.github).project_dependencies ref).map
      parse_dependency).contains none = false)
    (hmid : d.src_or_package_deps (ctx.get_repo d.github) ref
      (optTruthy ((ctx.get_repo d.github).package_namespace ref) && !d.unmanaged)
      = .ok mid) :
    d.flatten ctx = .ok (
      (((ctx.get_repo d.github).project_dependencies ref).map
        parse_dependency).reduceOption
      ++ (d.flatten_unpackaged (ctx.get_repo d.github) "unpackaged/pre" d.skip
            false none ref).map
          (fun u => Dependency.static (.unmanagedGitHubRef u))
      ++ mid
      ++ (d.flatten_unpackaged (ctx.get_repo d.github) "unpackaged/post" d.skip
            (optTruthy ((ctx.get_repo d.github).package_namespace ref) && !d.unmanaged)
            ((ctx.get_repo d.github).package_namespace ref) ref).map
          (fun u => Dependency.static (.unmanagedGitHubRef u))) :=
  flatten_success_eq ctx d ref mid h hparse hmid

/-- Witness for C1: the flattened example unmanaged dependency is exactly
[transitive package dep, pre/a (pre/b skipped), src, post/c]. -/
theorem claimC1_witness :
    exampleUnmanagedDep.flatten exampleContext = .ok
      [ .static (.packageNamespaceVersion { «namespace» := "ns2", version := "1.0" }),
        .static (.unmanagedGitHubRef
          { github := some "https://github.com/a/b", ref := "abc",
            subfolder := some "unpackaged/pre/a", unmanaged := some true }),
        .static (.unmanagedGitHubRef
          { github := some "https://github.com/a/b", ref := "abc",
            subfolder := some "src", unmanaged := some true }),
        .static (.unmanagedGitHubRef
          { github := some "https://github.com/a/b", ref := "abc",
            subfolder := some "unpackaged/post/c", unmanaged := some true,
            namespace_strip := some "ns" }) ] := by
  have h := claimC1_flatten_order exampleContext exampleUnmanagedDep "abc"
    [ .static (.unmanagedGitHubRef
        { github := some "https://github.com/a/b", ref := "abc",
          subfolder := some "src", unmanaged := some true }) ]
    rfl (by decide) (by decide)
  exact h.trans (by decide)

/-- C6 counterexample: an unmanaged flatten over a repository whose `src`
directory is absent (the repository reader reports NotFound) aborts with
the uncaught `NotFoundError` — refuting "a missing src directory is not an
error". All of the claim's other premises hold: the dependency is
resolved, the install is not managed, and every transitive declaration
parses. -/
theorem claimC6_counterexample :
    exampleRepoNoSrc.directory_contents "src" "abc" = none
    ∧ exampleUnmanagedDep.unmanaged = true
    ∧ exampleUnmanagedDep.flatten exampleContextNoSrc = .error .notFoundError := by
  exact ⟨rfl, rfl, by decide⟩

/-- C6 amended: for a resolved dependency whose transitive declarations
parse, the middle segment obeys: when not managed, a missing `src`
directory propagates `NotFoundError` (it is an error), and a present `src`
directory contributes one `UnmanagedGitHubRefDependency` (carrying this
dependency's own namespace options) exactly when its listing is
non-empty; when managed, the resolver-supplied `managed_dependency` is the
middle element, and its absence raises `DependencyResolutionError`. -/
theorem claimC6_src_or_package (ctx : ProjectContext)
    (d : GitHubDynamicDependency) (ref : String)
    (h : d.ref = some ref)
    (hparse : (((ctx.get_repo d.github).project_dependencies ref).map
      parse_dependency).contains none = false) :
    ((optTruthy ((ctx.get_repo d.github).package_namespace ref) && !d.unmanaged) = false →
      (ctx.get_repo d.github).directory_contents "src" ref = none →
      d.flatten ctx = .error .notFoundError)
    ∧ ((optTruthy ((ctx.get_repo d.github).package_namespace ref) && !d.unmanaged) = false →
       ∀ cs, (ctx.get_repo d.github).directory_contents "src" ref = some cs →
        d.flatten ctx = .ok (
          (((ctx.get_repo d.github).project_dependencies ref).map
            parse_dependency).reduceOption
          ++ (d.flatten_unpackaged (ctx.get_repo d.github) "unpackaged/pre" d.skip
                false none ref).map
              (fun u => Dependency.static (.unmanagedGitHubRef u))
          ++ (if cs.isEmpty then [] else
              [.static (.unmanagedGitHubRef
                { github := d.github, ref := ref, subfolder := some "src",
                  unmanaged := some d.unmanaged,
                  namespace_inject := d.namespace_inject,
                  namespace_strip := d.namespace_strip })])
          ++ (d.flatten_unpackaged (ctx.get_repo d.github) "unpackaged/post" d.skip
                (optTruthy ((ctx.get_repo d.github).package_namespace ref) && !d.unmanaged)
                ((ctx.get_repo d.github).package_namespace ref) ref).map
              (fun u => Dependency.static (.unmanagedGitHubRef u))))
    ∧ ((optTruthy ((ctx.get_repo d.github).package_namespace ref) && !d.unmanaged) = true →
       d.managed_dependency = none →
       d.flatten ctx = .error (.dependencyResolutionError
        ("Could not find latest release for " ++ d.description)))
    ∧ ((optTruthy ((ctx.get_repo d.github).package_namespace ref) && !d.unmanaged) = true →
       ∀ md, d.managed_dependency = some md →
        d.flatten ctx = .ok (
          (((ctx.get_repo d.github).project_dependencies ref).map
            parse_dependency).reduceOption
          ++ (d.flatten_unpackaged (ctx.get_repo d.github) "unpackaged/pre" d.skip
                false none ref).map
              (fun u => Dependency.static (.unmanagedGitHubRef u))
          ++ [.static md]
          ++ (d.flatten_unpackaged (ctx.get_repo d.github) "unpackaged/post" d.skip
                (optTruthy ((ctx.get_repo d.github).package_namespace ref) && !d.unmanaged)
                ((ctx.get_repo d.github).package_namespace ref) ref).map
              (fun u => Dependency.static (.unmanagedGitHubRef u)))) := by
  refine ⟨?_, ?_, ?_, ?_⟩
  · intro hM hdc
    refine flatten_error_eq ctx d ref .notFoundError h hparse ?_
    rw [hM]
    unfold GitHubDynamicDependency.src_or_package_deps
    simp [hdc]
  · intro hM cs hdc
    refine flatten_success_eq ctx d ref _ h hparse ?_
    rw [hM]
    unfold GitHubDynamicDependency.src_or_package_deps
    rw [hdc]
    cases hcs : cs.isEmpty <;> simp [hcs]
  · intro hM hmd
    refine flatten_error_eq ctx d ref _ h hparse ?_
    rw [hM]
    unfold GitHubDynamicDependency.src_or_package_deps
    simp [hmd]
  · intro hM md hmd
    refine flatten_success_eq ctx d ref _ h hparse ?_
    rw [hM]
    unfold GitHubDynamicDependency.src_or_package_deps
    simp [hmd]

/-- Witness for the amended C6 in the managed case: the example managed
dependency flattens with the resolver-supplied package dependency in the
middle. -/
theorem claimC6_witness :
    exampleManagedDep.flatten exampleContext = .ok
      [ .static (.packageNamespaceVersion { «namespace» := "ns2", version := "1.0" }),
        .static (.unmanagedGitHubRef
          { github := some "https://github.com/a/b", ref := "abc",
            subfolder := some "unpackaged/pre/a", unmanaged := some true }),
        .static (.unmanagedGitHubRef
          { github := some "https://github.com/a/b", ref := "abc",
            subfolder := some "unpackaged/pre/b", unmanaged := some true }),
        .static (.packageNamespaceVersion { «namespace» := "ns", version := "1.9" }),
        .static (.unmanagedGitHubRef
          { github := some "https://github.com/a/b", ref := "abc",
            subfolder := some "unpackaged/post/c", unmanaged := some false,
            namespace_inject := some "ns" }) ] := by
  have h := (claimC6_src_or_package exampleContext exampleManagedDep "abc"
      rfl (by decide)).2.2.2 (by decide)
    (.packageNamespaceVersion { «namespace» := "ns", version := "1.9" }) rfl
  exact h.trans (by decide)

/-- C10: when an unmanaged (`unmanaged = True`) dynamic dependency over a
repository that declares a (truthy) namespace is flattened, every
`unpackaged/post` subfolder dependency carries `namespace_strip` equal to
that namespace and no `namespace_inject`; and whenever the flatten
succeeds, those post dependencies form the final segment of the result. -/
theorem claimC10_post_strip (ctx : ProjectContext)
    (d : GitHubDynamicDependency) (ref ns : String)
    (h : d.ref = some ref) (hu : d.unmanaged = true)
    (hns : (ctx.get_repo d.github).package_namespace ref = some ns)
    (hns2 : ns ≠ "") :
    (∀ e ∈ d.flatten_unpackaged (ctx.get_repo d.github) "unpackaged/post" d.skip
        (optTruthy ((ctx.get_repo d.github).package_namespace ref) && !d.unmanaged)
        ((ctx.get_repo d.github).package_namespace ref) ref,
      e.namespace_strip = some ns ∧ e.namespace_inject = none)
    ∧ (∀ l, d.flatten ctx = .ok l →
        ∃ A, l = A ++ (d.flatten_unpackaged (ctx.get_repo d.github)
            "unpackaged/post" d.skip
            (optTruthy ((ctx.get_repo d.github).package_namespace ref) && !d.unmanaged)
            ((ctx.get_repo d.github).package_namespace ref) ref).map
          (fun u => Dependency.static (.unmanagedGitHubRef u))) := by
  constructor
  · intro e he
    rw [hns, hu] at he
    unfold GitHubDynamicDependency.flatten_unpackaged at he
    cases hc : (ctx.get_repo d.github).directory_contents "unpackaged/post" ref with
    | none => rw [hc] at he; cases he
    | some cs =>
      rw [hc] at he
      simp only [List.mem_map] at he
      obtain ⟨dn, _, rfl⟩ := he
      simp [optTruthy, hns2]
  · intro l hl
    unfold GitHubDynamicDependency.flatten at hl
    rw [h] at hl
    by_cases hp : (((ctx.get_repo d.github).project_dependencies ref).map
        parse_dependency).contains none = true
    · simp only [hp, if_true] at hl
      cases hl
    · simp only [hp, if_false, Bool.not_eq_true] at hl
      rw [Bool.not_eq_true] at hp
      simp only [hp, Bool.false_eq_true, if_false] at hl
      cases hmid : GitHubDynamicDependency.src_or_package_deps d
          (ctx.get_repo d.github) ref
          (optTruthy ((ctx.get_repo d.github).package_namespace ref) && !d.unmanaged) with
      | error e => rw [hmid] at hl; cases hl
      | ok mid =>
        rw [hmid] at hl
        rw [show (match (Except.ok mid : Except FlattenError (List Dependency)) with
          | Except.error e => Except.error e
          | Except.ok m => Except.ok
              ((((ctx.get_repo d.github).project_dependencies ref).map
                parse_dependency).reduceOption
              ++ (d.flatten_unpackaged (ctx.get_repo d.github) "unpackaged/pre"
                    d.skip false none ref).map
                  (fun u => Dependency.static (.unmanagedGitHubRef u))
              ++ m
              ++ (d.flatten_unpackaged (ctx.get_repo d.github) "unpackaged/post"
                    d.skip
                    (optTruthy ((ctx.get_repo d.github).package_namespace ref) &&
                      !d.unmanaged)
                    ((ctx.get_repo d.github).package_namespace ref) ref).map
                  (fun u => Dependency.static (.unmanagedGitHubRef u))))
          = Except.ok
              ((((ctx.get_repo d.github).project_dependencies ref).map
                parse_dependency).reduceOption
              ++ (d.flatten_unpackaged (ctx.get_repo d.github) "unpackaged/pre"
                    d.skip false none ref).map
                  (fun u => Dependency.static (.unmanagedGitHubRef u))
              ++ mid
              ++ (d.flatten_unpackaged (ctx.get_repo d.github) "unpackaged/post"
                    d.skip
                    (optTruthy ((ctx.get_repo d.github).package_namespace ref) &&
                      !d.unmanaged)
                    ((ctx.get_repo d.github).package_namespace ref) ref).map
                  (fun u => Dependency.static (.unmanagedGitHubRef u)))
          from rfl] at hl
        cases hl
        exact ⟨(((ctx.get_repo d.github).project_dependencies ref).map
            parse_dependency).reduceOption
          ++ ((d.flatten_unpackaged (ctx.get_repo d.github) "unpackaged/pre"
                d.skip false none ref).map
              (fun u => Dependency.static (.unmanagedGitHubRef u)) ++ mid),
          by simp [List.append_assoc]⟩

/-- Witness for C10 at the example unmanaged dependency: the produced
post subfolder dependency strips namespace "ns" and injects nothing. -/
theorem claimC10_witness :
    ({ github := some "https://github.com/a/b", ref := "abc", subfolder := some "unpackaged/post/c", unmanaged := some true, namespace_strip := some "ns" } : UnmanagedGitHubRefDependency).namespace_strip
      = some "ns"
    ∧ ({ github := some "https://github.com/a/b", ref := "abc", subfolder := some "unpackaged/post/c", unmanaged := some true, namespace_strip := some "ns" } : UnmanagedGitHubRefDependency).namespace_inject
      = none :=
  (claimC10_post_strip exampleContext exampleUnmanagedDep "abc" "ns"
    rfl rfl rfl (by decide)).1 _ (by decide)

end CumulusCI
